import Mathlib

/-!
Verification of the apelios signaling/session/frame-pump core against its
natural-language specification.  Each Python function named in a claim is
shallowly embedded as a Lean definition; handles, transports and external
capabilities are abstracted to values, and exception flow is made explicit
with `Except`.
-/

namespace Apelios

/-! ### Signaling relay (src/apelios/signaling_server/server.py)

`SignalingServer` keeps `self.sender : Optional[Handle]` and
`self.receivers : set(Handle)`.  Handles are abstracted as natural numbers;
the receiver set is a duplicate-free list. -/

structure Registry where
  sender : Option Nat
  receivers : List Nat
deriving DecidableEq

/-- `handle_sender` line 57: `self.sender = websocket` (unconditional assignment,
replacing any existing sender handle). -/
def registerSender (reg : Registry) (h : Nat) : Registry :=
  { reg with sender := some h }

/-- `handle_receiver` line 86: `self.receivers.add(websocket)` (set add). -/
def registerReceiver (reg : Registry) (h : Nat) : Registry :=
  { reg with receivers := if h ∈ reg.receivers then reg.receivers else reg.receivers ++ [h] }

/-- `handle_client` lines 28-43: the first message's `type` field selects the
branch; `"sender"` enters `handle_sender` (which stores the handle in the sender
slot), `"receiver"` enters `handle_receiver` (which adds the handle to the set),
anything else (including a missing field, `data.get("type") = None`) only logs a
warning and touches no registry state.  This models the registration effect of
the dispatch. -/
def handleClientRegister (reg : Registry) (clientType : Option String) (h : Nat) : Registry :=
  match clientType with
  | some t =>
      if t = "sender" then registerSender reg h
      else if t = "receiver" then registerReceiver reg h
      else reg
  | none => reg

structure RouteResult where
  delivered : List Nat
  newReceivers : List Nat
deriving DecidableEq

/-- `handle_sender` lines 64-75 (`routeOffer` in the spec): iterate over the
receiver set, try to send to each; a handle whose send raises is collected in
`dead_receivers`; afterwards `self.receivers -= dead_receivers`.  `fails h`
models "the send to handle `h` raises". -/
def routeOffer (receivers : List Nat) (fails : Nat → Bool) : RouteResult :=
  let res := receivers.foldl
    (fun (acc : List Nat × List Nat) r =>
      if fails r then (acc.1, acc.2 ++ [r]) else (acc.1 ++ [r], acc.2))
    ([], [])
  { delivered := res.1
    newReceivers := receivers.filter (fun r => !res.2.contains r) }

/-! ### FrameQueue (scripts/stream/aiortc/receiver.py)

`receive_video` lines 96-109 feed `self.frame_queue = Queue(maxsize=2)`:
if the queue is full the oldest item is popped with `get_nowait()` before the
new frame is `put`.  The queue is a front-is-oldest list; `cap` is the
`maxsize` argument. -/

def enqueueFrame (cap : Nat) (q : List Nat) (x : Nat) : List Nat :=
  if cap ≤ q.length then q.tail ++ [x] else q ++ [x]

/-! ### Signaling client (src/apelios/signaling_server/websocket_signaling.py)

`WebSocketSignaling` runs `_receive_loop` as a background task feeding
`_receive_queue`; `close()` cancels that task, awaits it catching only
`CancelledError`, then closes the websocket.  The task's termination is made
explicit as a `TaskOutcome`; a Python exception propagating out of the awaited
task would be `raisedErr`. -/

inductive TaskOutcome where
  | normal
  | cancelled
  | raisedErr (msg : String)
deriving DecidableEq

/-- One observable event at the receive loop's `async for` / queue awaits:
either the next wire message arrives (with its optional `message_type` and
`sdp` fields), or the transport closes (`ConnectionClosed`), or the task's
cancellation is delivered at this await point. -/
inductive WireEvent where
  | msg (messageType : Option String) (sdp : Option String)
  | connClosed
  | cancelHere
deriving DecidableEq

/-- Items `_receive_loop` puts on `_receive_queue`: a reconstructed session
description, the `{"request_offer": True}` control dict, or the `None`
end-of-stream sentinel. -/
inductive QueueItem where
  | desc (kind : String) (sdp : String)
  | requestOfferSignal
  | endOfStream
deriving DecidableEq

/-- `_receive_loop` lines 43-68: classify each inbound message; `offer`/`answer`
with an `sdp` field become descriptions, a missing `sdp` raises `KeyError` which
the `except Exception` arm turns into the `None` sentinel and a normal task
exit; `request_offer` becomes a control signal; unknown kinds are logged and
skipped; `ConnectionClosed` enqueues the sentinel and exits normally; a
cancellation delivered at an await point ends the task cancelled (it is a
`BaseException`, caught by neither `except` arm).  An empty remaining event
list models `close()` cancelling the task while it awaits the next message. -/
def receiveLoop : List WireEvent → List QueueItem × TaskOutcome
  | [] => ([], TaskOutcome.cancelled)
  | WireEvent.connClosed :: _ => ([QueueItem.endOfStream], TaskOutcome.normal)
  | WireEvent.cancelHere :: _ => ([], TaskOutcome.cancelled)
  | WireEvent.msg mt sdp :: rest =>
      if mt = some "offer" ∨ mt = some "answer" then
        match sdp with
        | some s =>
            let r := receiveLoop rest
            (QueueItem.desc (mt.getD "") s :: r.1, r.2)
        | none => ([QueueItem.endOfStream], TaskOutcome.normal)
      else if mt = some "request_offer" then
        let r := receiveLoop rest
        (QueueItem.requestOfferSignal :: r.1, r.2)
      else receiveLoop rest

/-- The client as seen by `close()`: whether `_receive_task` exists and how it
terminates once awaited, whether `self.websocket` is set, and whether the
underlying transport is still open. -/
structure WSClient where
  hasTask : Bool
  taskOutcome : TaskOutcome
  wsConnected : Bool
  wsOpen : Bool
deriving DecidableEq

/-- `close()` lines 99-110: if `_receive_task` is set, cancel it and await it,
catching only `asyncio.CancelledError`; any other exception from the await
propagates out of `close()` (modelled as `.error`), skipping the websocket
close.  Then, if `self.websocket` is set, close it. -/
def wsClose (c : WSClient) : Except String WSClient :=
  match (if c.hasTask then
           match c.taskOutcome with
           | TaskOutcome.raisedErr m => some m
           | _ => none
         else none) with
  | some m => Except.error m
  | none => Except.ok (if c.wsConnected then { c with wsOpen := false } else c)

/-! ### Session lifecycle manager, sender side (src/apelios/video_sender/sender.py)

`VideoSender.start` lines 156-202: a message loop over the signaling queue.
State is `connection_count` and `active_connections` (dict conn-id → peer
connection); each peer connection is abstracted to its applied remote
description.  The `connectionstatechange` watchdog callback (lines 178-185),
which deletes a terminal connection from `active_connections`, is the
`connClosed` event. -/

structure SenderState where
  connectionCount : Nat
  active : List (Nat × Option String)
deriving DecidableEq

inductive SenderEvent where
  | requestOffer
  | answer (sdp : String)
  | connClosed (id : Nat)
deriving DecidableEq

/-- Set the remote description of connection `id`. -/
def setRemote (id : Nat) (sdp : String) (l : List (Nat × Option String)) :
    List (Nat × Option String) :=
  l.map fun p => if p.1 = id then (p.1, some sdp) else p

/-- One iteration of the `VideoSender.start` message loop.
`request_offer` (lines 166-191): `connection_count += 1`, a fresh peer
connection is created and stored under the new id, an offer is sent.
Answer (lines 194-202): if `active_connections` is non-empty, look up
`active_connections[connection_count]` — a plain dict index, which raises
`KeyError` when that id has been deleted — and apply the answer as its remote
description; with no active connections the answer is logged and dropped.
`connClosed id` (lines 178-185): delete `id` from the active dict if present. -/
def senderStep (s : SenderState) : SenderEvent → Except String SenderState
  | SenderEvent.requestOffer =>
      Except.ok ⟨s.connectionCount + 1, s.active ++ [(s.connectionCount + 1, none)]⟩
  | SenderEvent.answer sdp =>
      if s.active.isEmpty then Except.ok s
      else
        match s.active.lookup s.connectionCount with
        | some _ => Except.ok ⟨s.connectionCount, setRemote s.connectionCount sdp s.active⟩
        | none => Except.error "KeyError"
  | SenderEvent.connClosed id =>
      Except.ok ⟨s.connectionCount, s.active.filter (fun p => p.1 ≠ id)⟩

def senderInit : SenderState := ⟨0, []⟩

def senderRun (es : List SenderEvent) : Except String SenderState :=
  es.foldlM senderStep senderInit

/-! ### Person detector (src/apelios/video_receiver/receiver.py, lines 71-157)

The OpenCV calls are external capabilities; each is modelled as an
`Except`-valued input (its outcome: a result, or a raised exception).
Exception flow of the Python bodies is explicit: a `try`/`except` arm is a
`match` on the `Except`, a raised-and-uncaught exception is `.error`. -/

structure Detection where
  bbox : Nat × Nat × Nat × Nat
  confidence : ℚ
deriving DecidableEq

deriving instance DecidableEq for Except

namespace PersonDetector

/-- `detect_hog` lines 71-109: resize by `scale = 0.5`, run the HOG capability
(`hogPrim` is the combined outcome of `cv2.resize` + `detectMultiScale`),
scale every box back with `int(v / scale) = 2 * v`, keep each weight as the
confidence; the surrounding `try` turns any capability exception into the
(empty) accumulated detection list. -/
def detect_hog (hogPrim : Except String (List ((Nat × Nat × Nat × Nat) × ℚ))) :
    Except String (List Detection) :=
  match hogPrim with
  | Except.error _ => Except.ok []
  | Except.ok boxes =>
      Except.ok (boxes.map fun b =>
        { bbox := (2 * b.1.1, 2 * b.1.2.1, 2 * b.1.2.2.1, 2 * b.1.2.2.2),
          confidence := b.2 })

/-- `detect_haar` lines 111-136: grayscale + cascade capability (`haarPrim`),
every box gets confidence 1.0; the surrounding `try` turns any capability
exception into the (empty) accumulated detection list. -/
def detect_haar (haarPrim : Except String (List (Nat × Nat × Nat × Nat))) :
    Except String (List Detection) :=
  match haarPrim with
  | Except.error _ => Except.ok []
  | Except.ok boxes => Except.ok (boxes.map fun b => { bbox := b, confidence := 1 })

/-- `detect` lines 138-157: dispatch on `self.method`; an unrecognized method
returns `[]`; the outer `try`/`except` maps any escaping exception to `[]`. -/
def detect (method : String)
    (hogPrim : Except String (List ((Nat × Nat × Nat × Nat) × ℚ)))
    (haarPrim : Except String (List (Nat × Nat × Nat × Nat))) :
    Except String (List Detection) :=
  match (if method = "hog" then detect_hog hogPrim
         else if method = "haar" then detect_haar haarPrim
         else Except.ok []) with
  | Except.ok l => Except.ok l
  | Except.error _ => Except.ok []

end PersonDetector

/-! ### Frame ingestion pump (src/apelios/video_receiver/receiver.py, lines 241-360)

`VideoReceiver.handle_track` is a `while self.running` loop; one loop iteration
is `pumpStep` applied to the event observed at the frame pull.  `broken` records
that a `break` left the loop (budget exhaustion, quit key, cancellation); once
`running` is false or the loop was left, later events change nothing.
`delivered` records the frames handed to the display sink (`cv2.imshow`),
`saved` the frames written to disk. -/

structure PumpCfg where
  display : Bool
  enableDetection : Bool
  saveFrames : Bool
deriving DecidableEq

structure PumpState where
  running : Bool
  broken : Bool
  consecutive : Nat
  frameCount : Nat
  detectionCount : Nat
  delivered : List Nat
  saved : List Nat
deriving DecidableEq

/-- What one pass through the loop body observes: a frame arrives (with the
outcome of the optional annotation-capability call, and the display's pending
key), a frame of unexpected type arrives, the frame converts but later
processing raises, the 5-second pull times out, the task is cancelled, or the
pull raises some other exception. -/
inductive PumpEvent where
  | frame (det : Except String (List Detection)) (key : Nat)
  | badFrame
  | postFrameFailure (msg : String)
  | timeout
  | cancelled
  | failure (msg : String)
deriving DecidableEq

def qKey : Nat := 113

def sKey : Nat := 115

/-- Lines 266-272: `detections = []`; when detection is enabled the annotation
capability is called inside its own `try`, and a raised exception resets
`detections` to `[]`. -/
def frameDetections (cfg : PumpCfg) (det : Except String (List Detection)) : List Detection :=
  if cfg.enableDetection then
    match det with
    | Except.ok l => l
    | Except.error _ => []
  else []

/-- One iteration of `handle_track` (lines 248-355).  Success path: reset
`consecutive_errors`, bump `frame_count`, compute detections, bump
`detection_count`/save when detections were found (lines 306-318), display the
frame and honor the `q`/`s` keys (lines 321-333).  Timeout (335-342) and
generic failure (348-355): increment the counter, stop when it reaches
`max_consecutive_errors = 10`, else back off and retry.  `CancelledError`
(344-346) breaks out without touching `running`.  `postFrameFailure` models a
raise after the counter was already reset (so the generic arm increments it
from 0 to 1, which never exhausts the budget of 10). -/
def pumpStep (cfg : PumpCfg) (s : PumpState) (e : PumpEvent) : PumpState :=
  if s.running && !s.broken then
    match e with
    | PumpEvent.frame det key =>
        let s1 : PumpState := { s with consecutive := 0, frameCount := s.frameCount + 1 }
        let dets := frameDetections cfg det
        let s2 : PumpState :=
          if cfg.enableDetection && !dets.isEmpty then
            { s1 with detectionCount := s1.detectionCount + 1,
                      saved := if cfg.saveFrames then s1.saved ++ [s1.frameCount] else s1.saved }
          else if cfg.saveFrames && s1.frameCount % 30 == 0 then
            { s1 with saved := s1.saved ++ [s1.frameCount] }
          else s1
        if cfg.display then
          let s3 : PumpState := { s2 with delivered := s2.delivered ++ [s2.frameCount] }
          if key == qKey then { s3 with running := false, broken := true }
          else if key == sKey then { s3 with saved := s3.saved ++ [s3.frameCount] }
          else s3
        else s2
    | PumpEvent.badFrame =>
        { s with consecutive := 0, frameCount := s.frameCount + 1 }
    | PumpEvent.postFrameFailure _ =>
        { s with consecutive := 0 + 1, frameCount := s.frameCount + 1 }
    | PumpEvent.timeout =>
        let c := s.consecutive + 1
        if 10 ≤ c then { s with consecutive := c, running := false, broken := true }
        else { s with consecutive := c }
    | PumpEvent.cancelled => { s with broken := true }
    | PumpEvent.failure _ =>
        let c := s.consecutive + 1
        if 10 ≤ c then { s with consecutive := c, running := false, broken := true }
        else { s with consecutive := c }
  else s

def pumpInit : PumpState := ⟨true, false, 0, 0, 0, [], []⟩

def pumpRun (cfg : PumpCfg) (s : PumpState) (es : List PumpEvent) : PumpState :=
  es.foldl (pumpStep cfg) s

/-- The events the error-budget discussion quantifies over: everything the pull
loop can observe except a quit keypress on the display sink (which stops the
pump by explicit user request, at counter 0). -/
def noQuitB (cfg : PumpCfg) : PumpEvent → Bool
  | PumpEvent.frame _ key => !(cfg.display && key == qKey)
  | _ => true

/-! ### Robust receiver pump (scripts/stream/webrtc/reciever-2.py, lines 38-155)

`RobustVideoReceiver.handle_track` — the near-identical script variant of the
pump; it has no annotation capability, keeps a cumulative `error_count`, and its
generic-failure arm additionally stops on transport-teardown text. -/

/-- `needle` is a leading chunk of `hay`. -/
def charsLeadEq : List Char → List Char → Bool
  | _, [] => true
  | [], _ :: _ => false
  | h :: hs, n :: ns => h == n && charsLeadEq hs ns

/-- `needle` occurs somewhere inside `hay` (Python's `in` on strings). -/
def charsHaveSub : List Char → List Char → Bool
  | [], needle => needle.isEmpty
  | h :: t, needle => charsLeadEq (h :: t) needle || charsHaveSub t needle

def strHasSub (hay needle : String) : Bool :=
  charsHaveSub hay.toList needle.toList

/-- reciever-2.py line 143: `"Connection" in str(e) or "closed" in str(e).lower()`. -/
def teardownText (msg : String) : Bool :=
  strHasSub msg "Connection" || strHasSub (String.mk (msg.toList.map Char.toLower)) "closed"

structure RobustState where
  running : Bool
  broken : Bool
  consecutive : Nat
  frameCount : Nat
  errorCount : Nat
  delivered : List Nat
  saved : List Nat
deriving DecidableEq

inductive RobustEvent where
  | frame (key : Nat)
  | badFrame
  | timeout
  | cancelled
  | failure (msg : String)
deriving DecidableEq

/-- One iteration of `RobustVideoReceiver.handle_track`.  The generic-failure
arm (lines 132-149): increment `consecutive_errors` and `error_count`; stop if
the budget of 10 is exhausted; otherwise stop anyway if the failure text
indicates transport teardown; otherwise back off and retry. -/
def robustStep (display saveFrames : Bool) (s : RobustState) (e : RobustEvent) : RobustState :=
  if s.running && !s.broken then
    match e with
    | RobustEvent.frame key =>
        let s1 : RobustState := { s with consecutive := 0, frameCount := s.frameCount + 1 }
        if display && (key == qKey) then
          { s1 with delivered := s1.delivered ++ [s1.frameCount],
                    running := false, broken := true }
        else
          let s2 : RobustState :=
            if display then
              if key == sKey then
                { s1 with delivered := s1.delivered ++ [s1.frameCount],
                          saved := s1.saved ++ [s1.frameCount] }
              else { s1 with delivered := s1.delivered ++ [s1.frameCount] }
            else s1
          if saveFrames && s2.frameCount % 30 == 0 then
            { s2 with saved := s2.saved ++ [s2.frameCount] }
          else s2
    | RobustEvent.badFrame =>
        { s with consecutive := 0, frameCount := s.frameCount + 1 }
    | RobustEvent.timeout =>
        let c := s.consecutive + 1
        if 10 ≤ c then { s with consecutive := c, running := false, broken := true }
        else { s with consecutive := c }
    | RobustEvent.cancelled => { s with broken := true }
    | RobustEvent.failure msg =>
        let c := s.consecutive + 1
        if 10 ≤ c then
          { s with consecutive := c, errorCount := s.errorCount + 1,
                   running := false, broken := true }
        else if teardownText msg then
          { s with consecutive := c, errorCount := s.errorCount + 1,
                   running := false, broken := true }
        else { s with consecutive := c, errorCount := s.errorCount + 1 }
  else s

def robustInit : RobustState := ⟨true, false, 0, 0, 0, [], []⟩

end Apelios

namespace Apelios

/-! ### Theorems for the relay claims -/

theorem routeOffer_foldl (receivers : List Nat) (fails : Nat → Bool)
    (d dd : List Nat) :
    receivers.foldl
      (fun (acc : List Nat × List Nat) r =>
        if fails r then (acc.1, acc.2 ++ [r]) else (acc.1 ++ [r], acc.2))
      (d, dd)
    = (d ++ receivers.filter (fun r => !fails r), dd ++ receivers.filter fails) := by
  induction receivers generalizing d dd with
  | nil => simp
  | cons r rest ih =>
      by_cases hr : fails r
      · simp [List.foldl_cons, hr, ih]
      · simp [List.foldl_cons, hr, ih]

theorem routeOffer_delivered (receivers : List Nat) (fails : Nat → Bool) :
    (routeOffer receivers fails).delivered = receivers.filter (fun r => !fails r) := by
  simp [routeOffer, routeOffer_foldl]

theorem routeOffer_newReceivers (receivers : List Nat) (fails : Nat → Bool) :
    (routeOffer receivers fails).newReceivers
      = receivers.filter (fun r => !(receivers.filter fails).contains r) := by
  simp [routeOffer, routeOffer_foldl]

/-- C1: with any N ≥ 0 registered receivers, routing one offer delivers exactly
one copy to every receiver whose send succeeds (regardless of which other
receivers' sends raise), and every receiver whose send raises is removed from
the receiver set and receives no copy. -/
theorem c1_routeOffer_broadcast (receivers : List Nat) (fails : Nat → Bool) (r : Nat)
    (hnd : receivers.Nodup) (hr : r ∈ receivers) :
    (fails r = false →
        (routeOffer receivers fails).delivered.count r = 1
      ∧ r ∈ (routeOffer receivers fails).newReceivers)
  ∧ (fails r = true →
        r ∉ (routeOffer receivers fails).newReceivers
      ∧ r ∉ (routeOffer receivers fails).delivered) := by
  constructor
  · intro hfail
    constructor
    · rw [routeOffer_delivered]
      rw [List.count_filter (by simp [hfail])]
      exact List.count_eq_one_of_mem hnd hr
    · rw [routeOffer_newReceivers]
      simp only [List.mem_filter, List.contains, List.elem_eq_mem,
        Bool.not_eq_eq_eq_not, Bool.not_true, decide_eq_false_iff_not]
      refine ⟨hr, fun hc => ?_⟩
      have := hc.2
      rw [hfail] at this
      exact Bool.false_ne_true this
  · intro hfail
    constructor
    · rw [routeOffer_newReceivers]
      simp only [List.mem_filter, List.contains, List.elem_eq_mem,
        Bool.not_eq_eq_eq_not, Bool.not_true, decide_eq_false_iff_not]
      rintro ⟨-, hmem⟩
      exact hmem ⟨hr, hfail⟩
    · rw [routeOffer_delivered]
      simp only [List.mem_filter]
      rintro ⟨-, hc⟩
      rw [hfail] at hc
      simp at hc

/-- Witness for C1, at receivers = [1, 2, 3] where the send to handle 2 raises:
handle 1 gets exactly one copy and stays registered; handle 2 is removed and
gets nothing. -/
theorem c1_routeOffer_broadcast_witness :
    ((routeOffer [1, 2, 3] (fun n => n == 2)).delivered.count 1 = 1
      ∧ 1 ∈ (routeOffer [1, 2, 3] (fun n => n == 2)).newReceivers)
  ∧ (2 ∉ (routeOffer [1, 2, 3] (fun n => n == 2)).newReceivers
      ∧ 2 ∉ (routeOffer [1, 2, 3] (fun n => n == 2)).delivered) :=
  ⟨(c1_routeOffer_broadcast [1, 2, 3] (fun n => n == 2) 1 (by decide) (by decide)).1 (by decide),
   (c1_routeOffer_broadcast [1, 2, 3] (fun n => n == 2) 2 (by decide) (by decide)).2 (by decide)⟩

/-- Counterexample for C2: with handle 1 already in the sender slot, registering
handle 2 as sender does not fail and does not leave handle 1 in place — the
slot now holds handle 2 (silent replacement, `server.py` line 57). -/
theorem c2_register_counterexample :
    ¬ ((registerSender ⟨some 1, []⟩ 2).sender = some 1) := by decide

/-- C2 (amended): sender registration silently replaces any existing sender
handle (there is no `DuplicateSender` failure path) and leaves the receiver set
untouched; receiver registration always succeeds, leaves the sender slot
untouched, and adds the handle to the receiver set. -/
theorem c2_register_amended (reg : Registry) (h : Nat) :
    (registerSender reg h).sender = some h
  ∧ (registerSender reg h).receivers = reg.receivers
  ∧ (registerReceiver reg h).sender = reg.sender
  ∧ h ∈ (registerReceiver reg h).receivers := by
  refine ⟨rfl, rfl, rfl, ?_⟩
  simp only [registerReceiver]
  by_cases hm : h ∈ reg.receivers
  · simp [hm]
  · simp [hm]

/-- C9: a first message whose `type` is neither `"sender"` nor `"receiver"`
(including a missing field) registers nothing: the relay registry is unchanged. -/
theorem c9_unknown_type_no_registration (reg : Registry) (t : Option String) (h : Nat)
    (h1 : t ≠ some "sender") (h2 : t ≠ some "receiver") :
    handleClientRegister reg t h = reg := by
  match t with
  | none => rfl
  | some s =>
      simp only [handleClientRegister]
      rw [if_neg (by simpa using h1), if_neg (by simpa using h2)]

/-- Witness for C9: a client whose first message carries `type = "observer"`,
and one whose first message has no `type` field, leave a populated registry
unchanged. -/
theorem c9_unknown_type_no_registration_witness :
    handleClientRegister ⟨some 5, [7]⟩ (some "observer") 9 = ⟨some 5, [7]⟩
  ∧ handleClientRegister ⟨some 5, [7]⟩ none 9 = ⟨some 5, [7]⟩ :=
  ⟨c9_unknown_type_no_registration ⟨some 5, [7]⟩ (some "observer") 9 (by decide) (by decide),
   c9_unknown_type_no_registration ⟨some 5, [7]⟩ none 9 (by decide) (by decide)⟩

/-- C8: a capacity-2 drop-oldest frame queue that starts empty contains exactly
[2, 3] after enqueuing [1, 2, 3]; in general, enqueuing into a full queue drops
the oldest unread item to admit the new one. -/
theorem c8_frameQueue_dropOldest (q : List Nat) (x : Nat) (hq : 2 ≤ q.length) :
    [1, 2, 3].foldl (enqueueFrame 2) [] = [2, 3]
  ∧ enqueueFrame 2 q x = q.tail ++ [x] := by
  refine ⟨by decide, ?_⟩
  simp [enqueueFrame, hq]

/-- Witness for C8 at the full queue [1, 2]. -/
theorem c8_frameQueue_dropOldest_witness :
    [1, 2, 3].foldl (enqueueFrame 2) [] = [2, 3]
  ∧ enqueueFrame 2 [1, 2] 3 = [2, 3] :=
  c8_frameQueue_dropOldest [1, 2] 3 (by decide)

/-! ### Theorems for the signaling client -/

/-- The receive loop's own body swallows every ordinary exception (both
`except` arms end with a queue put and a return), so an awaited
`_receive_task` can only have ended normally or by cancellation. -/
theorem receiveLoop_no_raise (es : List WireEvent) :
    (receiveLoop es).2 = TaskOutcome.normal ∨ (receiveLoop es).2 = TaskOutcome.cancelled := by
  induction es with
  | nil => exact Or.inr rfl
  | cons e rest ih =>
      cases e with
      | connClosed => exact Or.inl rfl
      | cancelHere => exact Or.inr rfl
      | msg mt sdp =>
          by_cases h1 : mt = some "offer" ∨ mt = some "answer"
          · cases sdp with
            | some s => simpa [receiveLoop, h1] using ih
            | none => simp [receiveLoop, h1]
          · by_cases h2 : mt = some "request_offer"
            · simpa [receiveLoop, h1, h2] using ih
            · simpa [receiveLoop, h1, h2] using ih

/-- C7: when the pump task is the receive loop (whatever the transport
produced), `close()` never propagates an exception — the only failure awaiting
the cancelled task can raise is its cancellation, which is caught, so the
transport close is never skipped and the transport ends closed; and `close()`
on the already-closed client returns it unchanged (no-op). -/
theorem c7_close_independent_idempotent (c : WSClient) (es : List WireEvent)
    (htask : c.taskOutcome = (receiveLoop es).2)
    (hws : c.wsConnected = true) :
    ∃ c₂, wsClose c = Except.ok c₂ ∧ c₂.wsOpen = false ∧ wsClose c₂ = Except.ok c₂ := by
  have hout : c.taskOutcome = TaskOutcome.normal ∨ c.taskOutcome = TaskOutcome.cancelled := by
    rw [htask]; exact receiveLoop_no_raise es
  have hnone : (if c.hasTask then
      match c.taskOutcome with
      | TaskOutcome.raisedErr m => some m
      | _ => none
    else none) = none := by
    cases hc : c.hasTask
    · simp
    · rcases hout with h | h <;> simp [h]
  refine ⟨{ c with wsOpen := false }, ?_, rfl, ?_⟩
  · simp [wsClose, hnone, hws]
  · simp [wsClose, hnone, hws]

/-- Witness for C7: a connected client whose receive loop was cancelled while
awaiting the next message. -/
theorem c7_close_independent_idempotent_witness :
    ∃ c₂, wsClose ⟨true, TaskOutcome.cancelled, true, true⟩ = Except.ok c₂
      ∧ c₂.wsOpen = false ∧ wsClose c₂ = Except.ok c₂ :=
  c7_close_independent_idempotent ⟨true, TaskOutcome.cancelled, true, true⟩ [] rfl rfl

/-! ### Theorems for the sender session manager -/

/-- Counterexample for C4: create sessions 1 and 2, let the watchdog remove
session 2 (its connection reached a terminal state), then an answer arrives.
Session 1 is the most recently created *pending* session, yet the handler does
not apply the answer to it: `active_connections[connection_count]` raises
`KeyError` (sender.py line 197). -/
theorem c4_answer_counterexample :
    senderRun [SenderEvent.requestOffer, SenderEvent.requestOffer,
        SenderEvent.connClosed 2, SenderEvent.answer "sdp"]
      = Except.error "KeyError"
  ∧ senderRun [SenderEvent.requestOffer, SenderEvent.requestOffer,
        SenderEvent.connClosed 2, SenderEvent.answer "sdp"]
      ≠ Except.ok ⟨2, [(1, some "sdp")]⟩ := by
  refine ⟨rfl, fun h => ?_⟩
  rw [show senderRun [SenderEvent.requestOffer, SenderEvent.requestOffer,
        SenderEvent.connClosed 2, SenderEvent.answer "sdp"]
      = Except.error "KeyError" from rfl] at h
  exact Except.noConfusion h

/-- C4 (amended): an arriving answer is applied as the remote description of
the session with id `connection_count` — the most recently created session
overall — provided that session is still active; if the active set is empty the
answer is logged and dropped with no state change; if the active set is
non-empty but the most recently created session has been removed, the handler
raises `KeyError` instead of matching an older pending session. -/
theorem c4_answer_matching_amended (s : SenderState) (sdp : String) (d : Option String) :
    (s.active = [] → senderStep s (SenderEvent.answer sdp) = Except.ok s)
  ∧ (s.active.lookup s.connectionCount = some d →
       senderStep s (SenderEvent.answer sdp)
         = Except.ok ⟨s.connectionCount, setRemote s.connectionCount sdp s.active⟩)
  ∧ (s.active ≠ [] → s.active.lookup s.connectionCount = none →
       senderStep s (SenderEvent.answer sdp) = Except.error "KeyError") := by
  obtain ⟨cc, act⟩ := s
  cases act with
  | nil =>
      refine ⟨fun _ => rfl, fun hl => ?_, fun hne _ => absurd rfl hne⟩
      exact absurd hl (by simp [List.lookup])
  | cons a rest =>
      refine ⟨fun h => List.noConfusion h, fun hl => ?_, fun _ hn => ?_⟩
      · simp [senderStep, hl]
      · simp [senderStep, hn]

/-- Witness for C4 (amended): with session 1 pending and `connection_count = 1`,
the answer lands on session 1; with no sessions, the answer is dropped. -/
theorem c4_answer_matching_amended_witness :
    senderStep ⟨1, [(1, none)]⟩ (SenderEvent.answer "a") = Except.ok ⟨1, [(1, some "a")]⟩
  ∧ senderStep ⟨0, []⟩ (SenderEvent.answer "a") = Except.ok ⟨0, []⟩ :=
  ⟨(c4_answer_matching_amended ⟨1, [(1, none)]⟩ "a" none).2.1 rfl,
   (c4_answer_matching_amended ⟨0, []⟩ "a" none).1 rfl⟩

/-! ### Theorems for the person detector -/

theorem detect_hog_never_raises (p : Except String (List ((Nat × Nat × Nat × Nat) × ℚ))) :
    ∃ l, PersonDetector.detect_hog p = Except.ok l := by
  cases p with
  | error e => exact ⟨[], rfl⟩
  | ok boxes => exact ⟨_, rfl⟩

theorem detect_haar_never_raises (p : Except String (List (Nat × Nat × Nat × Nat))) :
    ∃ l, PersonDetector.detect_haar p = Except.ok l := by
  cases p with
  | error e => exact ⟨[], rfl⟩
  | ok boxes => exact ⟨_, rfl⟩

/-- C10: `detect` is total at its public interface — for every method string
and every outcome of the underlying detection capabilities it returns a
detection list, never an exception; when the capability of the selected branch
fails, and for any unrecognized method, it returns the empty list. -/
theorem c10_detect_total (method : String)
    (hogPrim : Except String (List ((Nat × Nat × Nat × Nat) × ℚ)))
    (haarPrim : Except String (List (Nat × Nat × Nat × Nat)))
    (e1 e2 : String) :
    (∃ l, PersonDetector.detect method hogPrim haarPrim = Except.ok l)
  ∧ (method = "hog" → hogPrim = Except.error e1 →
       PersonDetector.detect method hogPrim haarPrim = Except.ok [])
  ∧ (method = "haar" → haarPrim = Except.error e2 →
       PersonDetector.detect method hogPrim haarPrim = Except.ok [])
  ∧ (method ≠ "hog" → method ≠ "haar" →
       PersonDetector.detect method hogPrim haarPrim = Except.ok []) := by
  refine ⟨?_, ?_, ?_, ?_⟩
  · by_cases h1 : method = "hog"
    · obtain ⟨l, hl⟩ := detect_hog_never_raises hogPrim
      exact ⟨l, by simp [PersonDetector.detect, h1, hl]⟩
    · by_cases h2 : method = "haar"
      · obtain ⟨l, hl⟩ := detect_haar_never_raises haarPrim
        exact ⟨l, by simp [PersonDetector.detect, h1, h2, hl]⟩
      · exact ⟨[], by simp [PersonDetector.detect, h1, h2]⟩
  · intro h1 he
    subst h1; subst he
    simp [PersonDetector.detect, PersonDetector.detect_hog]
  · intro h2 he
    subst h2; subst he
    simp [PersonDetector.detect, PersonDetector.detect_haar]
  · intro h1 h2
    simp [PersonDetector.detect, h1, h2]

/-- Witness for C10: a failing HOG capability, a failing Haar capability, and
an unknown method all yield the empty detection list, never an exception. -/
theorem c10_detect_total_witness :
    PersonDetector.detect "hog" (Except.error "boom") (Except.ok []) = Except.ok []
  ∧ PersonDetector.detect "haar" (Except.ok []) (Except.error "boom") = Except.ok []
  ∧ PersonDetector.detect "other" (Except.ok []) (Except.ok []) = Except.ok [] :=
  ⟨(c10_detect_total "hog" (Except.error "boom") (Except.ok []) "boom" "x").2.1 rfl rfl,
   (c10_detect_total "haar" (Except.ok []) (Except.error "boom") "x" "boom").2.2.1 rfl rfl,
   (c10_detect_total "other" (Except.ok []) (Except.ok []) "x" "y").2.2.2
     (by decide) (by decide)⟩

/-! ### Theorems for the frame ingestion pump -/

/-- Processing a successfully pulled frame (without a quit keypress) resets the
error counter, keeps the pump running, and — when the display sink is
configured — hands the frame to it. -/
theorem pumpStep_frame_spec (cfg : PumpCfg) (s : PumpState)
    (det : Except String (List Detection)) (key : Nat)
    (hr : s.running = true) (hb : s.broken = false)
    (hk : (cfg.display && key == qKey) = false) :
    (pumpStep cfg s (PumpEvent.frame det key)).consecutive = 0
  ∧ (pumpStep cfg s (PumpEvent.frame det key)).running = true
  ∧ (pumpStep cfg s (PumpEvent.frame det key)).broken = false
  ∧ (cfg.display = true →
      (pumpStep cfg s (PumpEvent.frame det key)).delivered
        = s.delivered ++ [s.frameCount + 1]) := by
  simp only [pumpStep, hr, hb, Bool.not_false, Bool.and_self]
  split_ifs with h1 h2 h3 h4 h5 h6 h7 h8 h9 h10 <;>
    simp_all

/-- The state predicate the error-budget argument maintains over every
non-quit trace: the counter never exceeds the threshold, and the pump has
stopped (`running = false`, loop left) exactly when the counter reached it. -/
def PumpInv (s : PumpState) : Prop :=
  s.consecutive ≤ 10 ∧ (s.running = false ↔ s.consecutive = 10) ∧
    (s.running = false → s.broken = true)

theorem pumpStep_inv (cfg : PumpCfg) (s : PumpState) (e : PumpEvent)
    (he : noQuitB cfg e = true) (h : PumpInv s) : PumpInv (pumpStep cfg s e) := by
  obtain ⟨h1, h2, h3⟩ := h
  by_cases hrun : s.running = true
  · by_cases hbr : s.broken = true
    · have : pumpStep cfg s e = s := by
        simp [pumpStep, hbr]
      rw [this]; exact ⟨h1, h2, h3⟩
    · have hbf : s.broken = false := by
        cases hx : s.broken
        · rfl
        · exact absurd hx hbr
      cases e with
      | frame det key =>
          have hk : (cfg.display && key == qKey) = false := by
            cases hdk : (cfg.display && key == qKey)
            · rfl
            · exfalso
              have he' : (!(cfg.display && key == qKey)) = true := he
              rw [hdk] at he'
              exact Bool.noConfusion he'
          obtain ⟨hc, hrn, hbn, -⟩ := pumpStep_frame_spec cfg s det key hrun hbf hk
          refine ⟨by omega, ?_, ?_⟩
          · rw [hrn, hc]; simp
          · rw [hrn]; simp
      | badFrame =>
          refine ⟨by simp [pumpStep, hrun, hbf], ?_, ?_⟩ <;>
            simp [pumpStep, hrun, hbf]
      | postFrameFailure msg =>
          refine ⟨by simp [pumpStep, hrun, hbf], ?_, ?_⟩ <;>
            simp [pumpStep, hrun, hbf]
      | timeout =>
          have hne : s.consecutive ≠ 10 := fun hc => by
            rw [hrun] at h2
            exact Bool.noConfusion (h2.mpr hc)
          by_cases hten : 10 ≤ s.consecutive + 1
          · refine ⟨?_, ?_, ?_⟩ <;> simp [pumpStep, hrun, hbf, hten] <;> omega
          · refine ⟨?_, ?_, ?_⟩ <;> simp [pumpStep, hrun, hbf, hten] <;> omega
      | cancelled =>
          have hne : s.consecutive ≠ 10 := fun hc => by
            rw [hrun] at h2
            exact Bool.noConfusion (h2.mpr hc)
          refine ⟨?_, ?_, ?_⟩ <;> simp [pumpStep, hrun, hbf, hne, h1]
      | failure msg =>
          have hne : s.consecutive ≠ 10 := fun hc => by
            rw [hrun] at h2
            exact Bool.noConfusion (h2.mpr hc)
          by_cases hten : 10 ≤ s.consecutive + 1
          · refine ⟨?_, ?_, ?_⟩ <;> simp [pumpStep, hrun, hbf, hten] <;> omega
          · refine ⟨?_, ?_, ?_⟩ <;> simp [pumpStep, hrun, hbf, hten] <;> omega
  · have hrf : s.running = false := by
      cases hx : s.running
      · rfl
      · exact absurd hx hrun
    have : pumpStep cfg s e = s := by simp [pumpStep, hrf]
    rw [this]; exact ⟨h1, h2, h3⟩

theorem pumpRun_inv (cfg : PumpCfg) (es : List PumpEvent) (s : PumpState)
    (hes : es.all (noQuitB cfg) = true) (h : PumpInv s) : PumpInv (pumpRun cfg s es) := by
  induction es generalizing s with
  | nil => exact h
  | cons e rest ih =>
      rw [List.all_cons, Bool.and_eq_true] at hes
      exact ih (pumpStep cfg s e) hes.2 (pumpStep_inv cfg s e hes.1 h)

theorem pumpInit_inv : PumpInv pumpInit := by
  refine ⟨by norm_num [pumpInit], ?_, ?_⟩ <;> simp [pumpInit]

/-- Running `n ≤ 9` consecutive timeouts from a live state only advances the
counter by `n`. -/
theorem pumpRun_timeouts (cfg : PumpCfg) (n : Nat) (s : PumpState)
    (hr : s.running = true) (hb : s.broken = false) (hn : s.consecutive + n ≤ 9) :
    pumpRun cfg s (List.replicate n PumpEvent.timeout)
      = { s with consecutive := s.consecutive + n } := by
  induction n generalizing s with
  | zero => rfl
  | succ n ih =>
      have hstep : pumpStep cfg s PumpEvent.timeout
          = { s with consecutive := s.consecutive + 1 } := by
        simp only [pumpStep, hr, hb, Bool.not_false, Bool.and_self, if_true]
        rw [if_neg (by omega)]
      rw [show List.replicate (n + 1) PumpEvent.timeout
            = PumpEvent.timeout :: List.replicate n PumpEvent.timeout from rfl]
      rw [show pumpRun cfg s (PumpEvent.timeout :: List.replicate n PumpEvent.timeout)
            = pumpRun cfg (pumpStep cfg s PumpEvent.timeout)
                (List.replicate n PumpEvent.timeout) from rfl]
      rw [hstep]
      rw [ih { s with consecutive := s.consecutive + 1 } hr hb (by simp; omega)]
      have : s.consecutive + 1 + n = s.consecutive + (n + 1) := by omega
      simp [this]

/-- C3: in the frame ingestion pump, every successfully pulled frame resets
`consecutive_errors` to 0 and leaves the pump running; over any trace of pull
events (no quit keypress), the pump has stopped with `running = false` exactly
when the counter reached the threshold 10; ten consecutive timeouts stop the
pump; at most nine timeouts followed by one success leave it running with the
counter back at 0. -/
theorem c3_pump_error_budget (cfg : PumpCfg) (es : List PumpEvent) (s : PumpState)
    (det : Except String (List Detection)) (key n : Nat)
    (hes : es.all (noQuitB cfg) = true)
    (hr : s.running = true) (hb : s.broken = false)
    (hk : (cfg.display && key == qKey) = false)
    (hn : n ≤ 9) :
    ((pumpStep cfg s (PumpEvent.frame det key)).consecutive = 0
      ∧ (pumpStep cfg s (PumpEvent.frame det key)).running = true)
  ∧ ((pumpRun cfg pumpInit es).running = false
      ↔ (pumpRun cfg pumpInit es).consecutive = 10)
  ∧ (pumpRun cfg pumpInit (List.replicate 10 PumpEvent.timeout)).running = false
  ∧ ((pumpRun cfg pumpInit
        (List.replicate n PumpEvent.timeout ++ [PumpEvent.frame det key])).running = true
      ∧ (pumpRun cfg pumpInit
        (List.replicate n PumpEvent.timeout ++ [PumpEvent.frame det key])).consecutive = 0) := by
  obtain ⟨hc0, hr0, hb0, -⟩ := pumpStep_frame_spec cfg s det key hr hb hk
  have hnine : pumpRun cfg pumpInit (List.replicate 9 PumpEvent.timeout)
      = { pumpInit with consecutive := 9 } := by
    have h9 := pumpRun_timeouts cfg 9 pumpInit rfl rfl (by decide)
    simpa [pumpInit] using h9
  refine ⟨⟨hc0, hr0⟩, (pumpRun_inv cfg es pumpInit hes pumpInit_inv).2.1, ?_, ?_⟩
  · rw [show List.replicate 10 PumpEvent.timeout
        = List.replicate 9 PumpEvent.timeout ++ [PumpEvent.timeout] from rfl]
    rw [show pumpRun cfg pumpInit (List.replicate 9 PumpEvent.timeout ++ [PumpEvent.timeout])
        = pumpRun cfg (pumpRun cfg pumpInit (List.replicate 9 PumpEvent.timeout))
            [PumpEvent.timeout] from List.foldl_append ..]
    rw [hnine]
    simp [pumpRun, pumpStep, pumpInit]
  · have htn : pumpRun cfg pumpInit (List.replicate n PumpEvent.timeout)
        = { pumpInit with consecutive := n } := by
      have hx := pumpRun_timeouts cfg n pumpInit rfl rfl (by simpa [pumpInit] using hn)
      simpa [pumpInit] using hx
    rw [show pumpRun cfg pumpInit
          (List.replicate n PumpEvent.timeout ++ [PumpEvent.frame det key])
        = pumpRun cfg (pumpRun cfg pumpInit (List.replicate n PumpEvent.timeout))
            [PumpEvent.frame det key] from List.foldl_append ..]
    rw [htn]
    have hspec := pumpStep_frame_spec cfg { pumpInit with consecutive := n } det key
      rfl rfl hk
    exact ⟨hspec.2.1, hspec.1⟩

/-- Witness for C3, with display and detection off, on a one-timeout trace and
small concrete inputs. -/
theorem c3_pump_error_budget_witness :
    ((pumpStep ⟨false, false, false⟩ pumpInit (PumpEvent.frame (Except.ok []) 0)).consecutive = 0
      ∧ (pumpStep ⟨false, false, false⟩ pumpInit (PumpEvent.frame (Except.ok []) 0)).running = true)
  ∧ ((pumpRun ⟨false, false, false⟩ pumpInit [PumpEvent.timeout]).running = false
      ↔ (pumpRun ⟨false, false, false⟩ pumpInit [PumpEvent.timeout]).consecutive = 10)
  ∧ (pumpRun ⟨false, false, false⟩ pumpInit
      (List.replicate 10 PumpEvent.timeout)).running = false
  ∧ ((pumpRun ⟨false, false, false⟩ pumpInit
        (List.replicate 0 PumpEvent.timeout ++ [PumpEvent.frame (Except.ok []) 0])).running = true
      ∧ (pumpRun ⟨false, false, false⟩ pumpInit
        (List.replicate 0 PumpEvent.timeout
          ++ [PumpEvent.frame (Except.ok []) 0])).consecutive = 0) :=
  c3_pump_error_budget ⟨false, false, false⟩ [PumpEvent.timeout] pumpInit (Except.ok []) 0 0
    (by decide) rfl rfl (by decide) (by decide)

/-- C5: for a successfully pulled frame with annotation enabled, a failure of
the annotation capability leaves the error counter reset at 0 (never
incremented), the detection result defaults to the empty list, and the frame is
still handed to the configured display sink. -/
theorem c5_annotation_failure (cfg : PumpCfg) (s : PumpState) (e : String) (key : Nat)
    (hdet : cfg.enableDetection = true) (hd : cfg.display = true)
    (hr : s.running = true) (hb : s.broken = false) :
    (pumpStep cfg s (PumpEvent.frame (Except.error e) key)).consecutive = 0
  ∧ frameDetections cfg (Except.error e) = []
  ∧ (pumpStep cfg s (PumpEvent.frame (Except.error e) key)).delivered
      = s.delivered ++ [s.frameCount + 1] := by
  have hfd : frameDetections cfg (Except.error e) = [] := by
    simp [frameDetections, hdet]
  refine ⟨?_, hfd, ?_⟩ <;>
  · simp only [pumpStep, hr, hb, Bool.not_false, Bool.and_self, if_true, hfd, hd]
    split_ifs <;> simp_all

/-- Witness for C5: detection and display on, annotation capability raising. -/
theorem c5_annotation_failure_witness :
    (pumpStep ⟨true, true, false⟩ pumpInit
        (PumpEvent.frame (Except.error "boom") 0)).consecutive = 0
  ∧ frameDetections ⟨true, true, false⟩ (Except.error "boom") = []
  ∧ (pumpStep ⟨true, true, false⟩ pumpInit
        (PumpEvent.frame (Except.error "boom") 0)).delivered = [] ++ [0 + 1] :=
  c5_annotation_failure ⟨true, true, false⟩ pumpInit "boom" 0 rfl rfl rfl rfl

/-- Counterexample for C6: in the apelios pump (`VideoReceiver.handle_track`),
a first non-timeout failure whose text plainly indicates transport teardown
("Connection closed") does NOT stop the pump — there is no teardown-text check
there, so the pump keeps running with the counter at 1. -/
theorem c6_teardown_counterexample :
    teardownText "Connection closed" = true
  ∧ (pumpStep ⟨false, false, false⟩ pumpInit
        (PumpEvent.failure "Connection closed")).running = true
  ∧ (pumpStep ⟨false, false, false⟩ pumpInit
        (PumpEvent.failure "Connection closed")).consecutive = 1 := by
  refine ⟨by decide, rfl, rfl⟩

/-- C6 (amended): only the script pump (`RobustVideoReceiver.handle_track`)
checks the failure text: there, any non-timeout failure increments the counter
and, when the text contains "Connection" or (case-insensitively) "closed", the
pump stops regardless of the remaining budget, while other failures back off
and retry exactly like a timeout while budget remains; the apelios pump
(`VideoReceiver.handle_track`) performs no text check — its non-timeout
failure arm is state-identical to its timeout arm. -/
theorem c6_failure_handling_amended (display saveFrames : Bool) (cfg : PumpCfg)
    (s : RobustState) (sa : PumpState) (msg : String)
    (hr : s.running = true) (hb : s.broken = false) :
    ((robustStep display saveFrames s (RobustEvent.failure msg)).consecutive
        = s.consecutive + 1)
  ∧ (teardownText msg = true →
      (robustStep display saveFrames s (RobustEvent.failure msg)).running = false)
  ∧ (teardownText msg = false → s.consecutive + 1 < 10 →
      (robustStep display saveFrames s (RobustEvent.failure msg)).running = true
    ∧ (robustStep display saveFrames s (RobustEvent.failure msg)).broken = false)
  ∧ pumpStep cfg sa (PumpEvent.failure msg) = pumpStep cfg sa PumpEvent.timeout := by
  refine ⟨?_, ?_, ?_, rfl⟩
  · simp only [robustStep, hr, hb, Bool.not_false, Bool.and_self, if_true]
    split_ifs <;> simp
  · intro ht
    simp only [robustStep, hr, hb, Bool.not_false, Bool.and_self, if_true, ht]
    split_ifs <;> simp
  · intro ht hlt
    simp only [robustStep, hr, hb, Bool.not_false, Bool.and_self, if_true, ht]
    rw [if_neg (by omega)]
    simp [hr, hb]

/-- Witness for C6 (amended): in the script pump a fresh "Connection closed"
failure stops the pump at counter 1, far below the budget. -/
theorem c6_failure_handling_amended_witness :
    ((robustStep false false robustInit (RobustEvent.failure "Connection closed")).consecutive
        = 0 + 1)
  ∧ (robustStep false false robustInit (RobustEvent.failure "Connection closed")).running
        = false :=
  ⟨(c6_failure_handling_amended false false ⟨false, false, false⟩ robustInit pumpInit
      "Connection closed" rfl rfl).1,
   (c6_failure_handling_amended false false ⟨false, false, false⟩ robustInit pumpInit
      "Connection closed" rfl rfl).2.1 (by decide)⟩

end Apelios
